import Mathlib

/-!
  # folder_lock — verification of the pipeline orchestrator

  A shallow embedding of `src/main.rs` of the `folder_lock` repository.
  The program packages a directory tree into a single encrypted artifact
  (tar → gzip → age with a passphrase) and reverses the process.

  The orchestrator functions `encrypt_folder` and `decrypt_file` are embedded
  statement by statement from the Rust source, with the filesystem made an
  explicit value and the observable actions of a run (prompt, passphrase read,
  stream creation, stage finalization) recorded in an event trace.

  The three external stages — tar (Tree Serializer), flate2/gzip (Stream
  Compressor) and age (Passphrase Cipher) — are crates outside this
  repository. The specification treats them as opaque stream transforms,
  specified only at their interface boundary, so they are modelled here as
  concrete reversible codecs over symbol streams (`List Nat`): an injective
  entry-stream encoding for tar, a header-tagged transform for gzip, and a
  mode-tagged file format with a passphrase commitment for age. Each model
  keeps exactly the structure the interfaces promise: round-trip fidelity,
  mode dispatch, and fail-closed authentication.
-/

namespace FolderLock

/-! ## Directory trees

The entries tar records for a directory subtree: a path relative to the
archive root, the kind of the entry, its permission bits, and its byte
contents (file data, or the link target for a symbolic link). Paths and
contents are byte sequences, as they are for `tar::Builder`. -/

/-- The kind of a directory-tree entry, as recorded in a tar header. -/
inductive EntryKind
  | file
  | dir
  | symlink
deriving DecidableEq

/-- One serialized directory-tree entry: relative path, kind, permission
bits, and byte contents. -/
structure Entry where
  relPath : List Nat
  kind : EntryKind
  mode : Nat
  contents : List Nat
deriving DecidableEq

/-! ## Tree Serializer (models the external `tar` crate)

`tar::Builder::append_dir_all` walks the directory and writes each entry to
the inner stream; `tar::Archive::unpack` reads entries back until the
end-of-archive marker. The model is a length-prefixed encoding of the entry
list; the round-trip law below is the fidelity the interface promises. -/

/-- Length-prefixed encoding of a symbol block into the stream. -/
def encodeList (xs : List Nat) : List Nat :=
  xs.length :: xs

/-- Decode one length-prefixed block; returns the block and the rest of the
stream. -/
def decodeList : List Nat → Option (List Nat × List Nat)
  | [] => none
  | n :: rest =>
    if n ≤ rest.length then some (rest.take n, rest.drop n) else none

/-- Numeric tag of an entry kind in the serialized stream. -/
def EntryKind.tag : EntryKind → Nat
  | .file => 0
  | .dir => 1
  | .symlink => 2

/-- Decode an entry-kind tag. -/
def decodeKind (t : Nat) : Option EntryKind :=
  if t = 0 then some .file
  else if t = 1 then some .dir
  else if t = 2 then some .symlink
  else none

/-- Serialize one entry: path block, kind tag, mode, contents block. -/
def encodeEntry (e : Entry) : List Nat :=
  encodeList e.relPath ++ e.kind.tag :: e.mode :: encodeList e.contents

/-- Decode one entry from the stream; returns the entry and the rest. -/
def decodeEntry (s : List Nat) : Option (Entry × List Nat) :=
  match decodeList s with
  | none => none
  | some (path, rest) =>
    match rest with
    | [] => none
    | t :: rest2 =>
      match decodeKind t, rest2 with
      | some k, m :: rest3 =>
        match decodeList rest3 with
        | some (c, rest4) => some (⟨path, k, m, c⟩, rest4)
        | none => none
      | _, _ => none

/-- Serialize a list of entries back to back. -/
def encodeEntries : List Entry → List Nat
  | [] => []
  | e :: es => encodeEntry e ++ encodeEntries es

/-- Decode a given count of entries from the stream. -/
def decodeEntries : Nat → List Nat → Option (List Entry × List Nat)
  | 0, s => some ([], s)
  | n + 1, s =>
    match decodeEntry s with
    | none => none
    | some (e, s1) =>
      match decodeEntries n s1 with
      | none => none
      | some (es, s2) => some (e :: es, s2)

/-- The Tree Serializer write side: the whole archive stream for a tree. -/
def tarSerialize (es : List Entry) : List Nat :=
  es.length :: encodeEntries es

/-- The Tree Serializer read side: parse a whole archive stream. -/
def tarDeserialize (s : List Nat) : Option (List Entry) :=
  match s with
  | [] => none
  | n :: rest =>
    match decodeEntries n rest with
    | some (es, []) => some es
    | _ => none

/-! ## Stream Compressor (models the external `flate2` crate)

`GzEncoder`/`GzDecoder` are a transparent reversible stream transform; the
model tags the stream with the two gzip magic bytes. -/

/-- The Stream Compressor write side. -/
def gzipCompress (d : List Nat) : List Nat :=
  31 :: 139 :: d

/-- The Stream Compressor read side; fails on a stream that does not carry
the gzip header. -/
def gzipDecompress : List Nat → Option (List Nat)
  | 31 :: 139 :: d => some d
  | _ => none

/-! ## Passphrase Cipher (models the external `age` crate)

An age file declares its encryption mode in the header: a scrypt stanza for
passphrase encryption, or recipient stanzas for public-key encryption. The
model keeps the mode tag, a wrapped-key commitment that binds the passphrase
(injective, which models the fail-closed authentication the interface
promises: a wrong passphrase never unwraps the file key), and the payload. -/

/-- The encryption mode an age file declares in its header. -/
inductive AgeMode
  | passphraseMode
  | recipientsMode
deriving DecidableEq

/-- The model of an age file: header mode, wrapped-key commitment, payload. -/
structure AgeFile where
  mode : AgeMode
  wrappedKey : List Nat
  payload : List Nat
deriving DecidableEq

/-- The scrypt wrapping of the file key by the passphrase, modelled as an
injective commitment: unwrapping succeeds exactly for the wrapping
passphrase, which is the fail-closed contract of the cipher interface. -/
def scryptWrap (pass : List Nat) : List Nat :=
  pass

/-- `age::Encryptor::with_user_passphrase` followed by writing the payload:
a passphrase-mode file whose wrapped key commits to the passphrase. -/
def cipherEncrypt (pass payload : List Nat) : AgeFile :=
  { mode := .passphraseMode, wrappedKey := scryptWrap pass, payload := payload }

/-- Numeric tag of an age mode in the on-disk header. -/
def AgeMode.tag : AgeMode → Nat
  | .passphraseMode => 0
  | .recipientsMode => 1

/-- Encode an age file to its on-disk byte stream. -/
def encodeAgeFile (f : AgeFile) : List Nat :=
  f.mode.tag :: (encodeList f.wrappedKey ++ f.payload)

/-- Parse the on-disk byte stream of an age file; fails on a malformed
header. -/
def decodeAgeFile (s : List Nat) : Option AgeFile :=
  match s with
  | [] => none
  | t :: rest =>
    match (if t = 0 then some AgeMode.passphraseMode
           else if t = 1 then some AgeMode.recipientsMode
           else none) with
    | none => none
    | some m =>
      match decodeList rest with
      | none => none
      | some (wk, payload) => some ⟨m, wk, payload⟩

/-- `age::Decryptor`: the parsed header, dispatched on the declared mode. -/
inductive Decryptor
  | recipients
  | passphraseDec (wrappedKey payload : List Nat)
deriving DecidableEq

/-- `age::Decryptor::new`: parse the header of the input stream; fails on a
malformed stream. -/
def Decryptor.new (bytes : List Nat) : Option Decryptor :=
  match decodeAgeFile bytes with
  | none => none
  | some f =>
    match f.mode with
    | .recipientsMode => some .recipients
    | .passphraseMode => some (.passphraseDec f.wrappedKey f.payload)

/-- The decrypt call of a passphrase-mode decryptor: unwrap the file key with
the supplied passphrase; fail closed (no payload released) when the
commitment does not match. -/
def passphraseDecrypt (wrappedKey payload pass : List Nat) : Option (List Nat) :=
  if scryptWrap pass = wrappedKey then some payload else none

/-! ## Codec round-trip laws -/

/-- A length-prefixed block decodes back, tail preserved. -/
@[simp] theorem decodeList_encodeList (xs rest : List Nat) :
    decodeList (encodeList xs ++ rest) = some (xs, rest) := by
  simp [encodeList, decodeList]

/-- One serialized entry decodes back, tail preserved. -/
@[simp] theorem decodeEntry_encodeEntry (e : Entry) (rest : List Nat) :
    decodeEntry (encodeEntry e ++ rest) = some (e, rest) := by
  cases e with
  | mk p k m c =>
    cases k <;>
      simp [encodeEntry, decodeEntry, decodeKind, EntryKind.tag, List.append_assoc]

/-- A serialized entry list decodes back under its own count, tail
preserved. -/
@[simp] theorem decodeEntries_encodeEntries (es : List Entry) (rest : List Nat) :
    decodeEntries es.length (encodeEntries es ++ rest) = some (es, rest) := by
  induction es generalizing rest with
  | nil => simp [encodeEntries, decodeEntries]
  | cons e es ih =>
    simp [encodeEntries, decodeEntries, List.append_assoc, ih]

/-- Tree Serializer round trip: an archived tree unpacks to itself. -/
@[simp] theorem tarDeserialize_tarSerialize (es : List Entry) :
    tarDeserialize (tarSerialize es) = some es := by
  have h := decodeEntries_encodeEntries es []
  simp only [List.append_nil] at h
  simp [tarSerialize, tarDeserialize, h]

/-- Stream Compressor round trip. -/
@[simp] theorem gzipDecompress_gzipCompress (d : List Nat) :
    gzipDecompress (gzipCompress d) = some d := by
  simp [gzipCompress, gzipDecompress]

/-- Age file format round trip: the on-disk stream parses back. -/
@[simp] theorem decodeAgeFile_encodeAgeFile (f : AgeFile) :
    decodeAgeFile (encodeAgeFile f) = some f := by
  cases f with
  | mk m wk p =>
    cases m <;> simp [encodeAgeFile, decodeAgeFile, AgeMode.tag]

/-! ## Filesystem model

The orchestrator touches the filesystem only through a handful of calls:
`is_dir`, `File::create`, `File::open`, `append_dir_all` (reading the tree
under the source directory) and `unpack` (writing entries under the
destination directory). The filesystem is a finite association of paths to
nodes; a directory node carries the tree of entries rooted at it. -/

/-- A filesystem node: a directory carrying the tree rooted at it, or a
regular file carrying its bytes. -/
inductive FsNode
  | dirNode (entries : List Entry)
  | fileNode (bytes : List Nat)
deriving DecidableEq

/-- The filesystem: an association of paths to nodes. -/
abbrev Fs := List (String × FsNode)

/-- Look up the node stored at a path. -/
def Fs.look : Fs → String → Option FsNode
  | [], _ => none
  | (k, v) :: rest, p => if k = p then some v else Fs.look rest p

/-- `Path::is_dir`: the path names an existing directory. -/
def Fs.isDir (fs : Fs) (p : String) : Bool :=
  match fs.look p with
  | some (.dirNode _) => true
  | _ => false

/-- The tree of entries under a directory path (what `append_dir_all`
walks). -/
def Fs.readDirTree (fs : Fs) (p : String) : List Entry :=
  match fs.look p with
  | some (.dirNode es) => es
  | _ => []

/-- `File::open` followed by reading the file through: the bytes at a file
path, or failure when the path names no regular file. -/
def Fs.readFileBytes (fs : Fs) (p : String) : Option (List Nat) :=
  match fs.look p with
  | some (.fileNode b) => some b
  | _ => none

/-- `File::create` followed by writing bytes through: store a regular file
at the path, replacing whatever was there. -/
def Fs.writeFile : Fs → String → List Nat → Fs
  | [], p, b => [(p, .fileNode b)]
  | (k, v) :: rest, p, b =>
    if k = p then (p, .fileNode b) :: rest
    else (k, v) :: Fs.writeFile rest p b

/-- Replace the tree stored at a directory path. -/
def Fs.setDir : Fs → String → List Entry → Fs
  | [], p, es => [(p, .dirNode es)]
  | (k, v) :: rest, p, es =>
    if k = p then (p, .dirNode es) :: rest
    else (k, v) :: Fs.setDir rest p es

/-- The overwrite policy of `tar::Archive::unpack`: entries already present
at a colliding relative path are replaced, everything else is kept. -/
def overwriteMerge (old new : List Entry) : List Entry :=
  old.filter (fun e => !(new.any (fun n => n.relPath = e.relPath))) ++ new

/-- `tar::Archive::unpack(out_folder)`: write the unpacked entries under the
destination directory, overwriting collisions. -/
def unpackInto (fs : Fs) (dest : String) (es : List Entry) : Fs :=
  Fs.setDir fs dest (overwriteMerge (fs.readDirTree dest) es)

/-- Looking up through a file write: the written path now holds the file,
every other path is untouched. -/
@[simp] theorem Fs.look_writeFile (fs : Fs) (p q : String) (b : List Nat) :
    (Fs.writeFile fs p b).look q =
      if q = p then some (.fileNode b) else fs.look q := by
  induction fs with
  | nil =>
    by_cases h : q = p <;> simp [Fs.writeFile, Fs.look, h, Ne.symm]
  | cons hd tl ih =>
    obtain ⟨k, v⟩ := hd
    by_cases hk : k = p
    · subst hk
      by_cases hq : q = k <;> simp [Fs.writeFile, Fs.look, hq, Ne.symm]
    · by_cases hq : k = q
      · subst hq
        simp [Fs.writeFile, Fs.look, hk, Ne.symm hk]
      · simp [Fs.writeFile, Fs.look, hk, hq, ih]

/-- Looking up through a directory replacement: the written path now holds
the directory, every other path is untouched. -/
@[simp] theorem Fs.look_setDir (fs : Fs) (p q : String) (es : List Entry) :
    (Fs.setDir fs p es).look q =
      if q = p then some (.dirNode es) else fs.look q := by
  induction fs with
  | nil =>
    by_cases h : q = p <;> simp [Fs.setDir, Fs.look, h, Ne.symm]
  | cons hd tl ih =>
    obtain ⟨k, v⟩ := hd
    by_cases hk : k = p
    · subst hk
      by_cases hq : q = k <;> simp [Fs.setDir, Fs.look, hq, Ne.symm]
    · by_cases hq : k = q
      · subst hq
        simp [Fs.setDir, Fs.look, hk, Ne.symm hk]
      · simp [Fs.setDir, Fs.look, hk, hq, ih]

/-! ## Observable events of a run

Each run of an operation is recorded as a trace of the observable actions of
`main.rs`, in program order: the precondition check, the passphrase prompt
and read, stream creation, the passphrase copy the decrypt callback makes,
stage finalization, and unpacking. The event `zeroizedPassphrase` would
model an explicit overwrite of the passphrase buffer; `main.rs` contains no
such call on any path (the passphrase is a plain `String` dropped at end of
scope), so no branch of the embedding emits it. -/

/-- An observable action of one run of `encrypt_folder` or `decrypt_file`. -/
inductive Event
  | checkedSourceDir
  | checkedDestDir
  | printedPrompt
  | readPassphrase
  | createdOutput
  | openedInput
  | appendedTree
  | finishedSerializer
  | finalizedCompressor
  | finishedCipher
  | flushedFile
  | clonedPassphrase
  | zeroizedPassphrase
  | unpackedArchive
deriving DecidableEq

/-- The outcome of a run: success, or a terminal error. -/
inductive Outcome (ε : Type)
  | ok
  | err (e : ε)
deriving DecidableEq

/-- The errors `encrypt_folder` can raise. In the embedding the calls after
`File::create` cannot fail (the pure model always succeeds there), so only
the two precondition bails are reachable; the full error surface of the
source is recorded separately in `errorSites`. -/
inductive EncError
  | notADirectory
  | emptyPassphrase
deriving DecidableEq

/-- The errors `decrypt_file` can raise. -/
inductive DecError
  | notADirectory
  | emptyPassphrase
  | openFailed
  | headerParseFailed
  | recipientsNotSupported
  | authenticationFailed
  | unpackFailed
deriving DecidableEq

/-- The result of one `encrypt_folder` run: outcome, resulting filesystem,
event trace. -/
structure EncRun where
  result : Outcome EncError
  fs : Fs
  trace : List Event
deriving DecidableEq

/-- The result of one `decrypt_file` run. -/
structure DecRun where
  result : Outcome DecError
  fs : Fs
  trace : List Event
deriving DecidableEq

/-! ## The Pipeline Orchestrator

`encrypt_folder` and `decrypt_file`, embedded statement by statement from
`src/main.rs` lines 51 to 146. `stdin` is the line the hidden prompt would
read; the filesystem is passed and returned explicitly. -/

/-- `encrypt_folder(folder, out)` from `main.rs` lines 51 to 100:
check `folder.is_dir()`; prompt and read the passphrase; reject an empty
passphrase; create the output file; wrap it in the age encryptor, the gzip
encoder and the tar builder; append the tree under `folder`; then finalize
the tar builder, drop the gzip encoder, finish the age writer and flush the
output buffer, in that order. -/
def encrypt_folder (fs : Fs) (folder out : String) (stdin : List Nat) : EncRun :=
  if Fs.isDir fs folder = false then
    { result := .err .notADirectory, fs := fs, trace := [.checkedSourceDir] }
  else if stdin = [] then
    { result := .err .emptyPassphrase, fs := fs
      trace := [.checkedSourceDir, .printedPrompt, .readPassphrase] }
  else
    let tree := fs.readDirTree folder
    let artifact := encodeAgeFile (cipherEncrypt stdin (gzipCompress (tarSerialize tree)))
    { result := .ok
      fs := Fs.writeFile fs out artifact
      trace := [.checkedSourceDir, .printedPrompt, .readPassphrase, .createdOutput,
                .appendedTree, .finishedSerializer, .finalizedCompressor,
                .finishedCipher, .flushedFile] }

/-- `decrypt_file(input, out_folder)` from `main.rs` lines 102 to 146:
check `out_folder.is_dir()`; prompt and read the passphrase; reject an empty
passphrase; open the input file; parse the age header; bail on a
recipients-mode file; decrypt with the passphrase (the callback clones the
passphrase once); then decompress, parse the archive and unpack it into
`out_folder`. -/
def decrypt_file (fs : Fs) (input outFolder : String) (stdin : List Nat) : DecRun :=
  if Fs.isDir fs outFolder = false then
    { result := .err .notADirectory, fs := fs, trace := [.checkedDestDir] }
  else if stdin = [] then
    { result := .err .emptyPassphrase, fs := fs
      trace := [.checkedDestDir, .printedPrompt, .readPassphrase] }
  else
    match fs.readFileBytes input with
    | none =>
      { result := .err .openFailed, fs := fs
        trace := [.checkedDestDir, .printedPrompt, .readPassphrase] }
    | some bytes =>
      match Decryptor.new bytes with
      | none =>
        { result := .err .headerParseFailed, fs := fs
          trace := [.checkedDestDir, .printedPrompt, .readPassphrase, .openedInput] }
      | some .recipients =>
        { result := .err .recipientsNotSupported, fs := fs
          trace := [.checkedDestDir, .printedPrompt, .readPassphrase, .openedInput] }
      | some (.passphraseDec wk payload) =>
        match passphraseDecrypt wk payload stdin with
        | none =>
          { result := .err .authenticationFailed, fs := fs
            trace := [.checkedDestDir, .printedPrompt, .readPassphrase,
                      .openedInput, .clonedPassphrase] }
        | some plain =>
          match gzipDecompress plain with
          | none =>
            { result := .err .unpackFailed, fs := fs
              trace := [.checkedDestDir, .printedPrompt, .readPassphrase,
                        .openedInput, .clonedPassphrase] }
          | some tarBytes =>
            match tarDeserialize tarBytes with
            | none =>
              { result := .err .unpackFailed, fs := fs
                trace := [.checkedDestDir, .printedPrompt, .readPassphrase,
                          .openedInput, .clonedPassphrase] }
            | some es =>
              { result := .ok
                fs := unpackInto fs outFolder es
                trace := [.checkedDestDir, .printedPrompt, .readPassphrase,
                          .openedInput, .clonedPassphrase, .unpackedArchive] }

/-! ## The layered pipeline as a plain composition -/

/-- The encrypt pipeline as the nested composition of the three stages: the
serializer innermost, its stream fed through the compressor, the compressed
stream through the passphrase cipher, the cipher output to the file. -/
def encryptPipeline (tree : List Entry) (pass : List Nat) : List Nat :=
  encodeAgeFile (cipherEncrypt pass (gzipCompress (tarSerialize tree)))

/-- The decrypt pipeline as the mirror composition: the file bytes through
the cipher (header parse, mode dispatch, passphrase unwrap), then the
decompressor, then the tree deserializer. -/
def decryptPipeline (bytes pass : List Nat) : Option (List Entry) :=
  match decodeAgeFile bytes with
  | none => none
  | some f =>
    match f.mode with
    | .recipientsMode => none
    | .passphraseMode =>
      match passphraseDecrypt f.wrappedKey f.payload pass with
      | none => none
      | some plain =>
        match gzipDecompress plain with
        | none => none
        | some tarBytes => tarDeserialize tarBytes

/-- Whether an event is the finalization of a pipeline stage. -/
def isFinalizeEvent : Event → Bool
  | .finishedSerializer => true
  | .finalizedCompressor => true
  | .finishedCipher => true
  | .flushedFile => true
  | _ => false

/-! ## The error surface of the two operations

A transcription of every fallible call in `encrypt_folder` and
`decrypt_file`, in source order, recording for each how the source wraps a
failure there: whether a context message describing the failing step is
attached (via `context`, `with_context`, or the message of a `bail`),
whether that message names the affected filesystem path, and whether the
source ever recovers locally from or retries the call (it never does: every
failure propagates with the question-mark operator and is terminal for the
invocation). -/

/-- One fallible call in the source and how its failure is wrapped. -/
structure ErrorSite where
  operation : String
  failingCall : String
  sourceLine : Nat
  wrapsStage : Bool
  namesPath : Bool
  locallyRecovered : Bool
  retried : Bool
deriving DecidableEq

/-- Every fallible call of `encrypt_folder` and `decrypt_file`, in source
order, with its wrapping as written in `main.rs`. -/
def errorSites : List ErrorSite :=
  [ -- encrypt_folder
    ⟨"encrypt", "bail: not a directory", 52, true, true, false, false⟩,
    ⟨"encrypt", "read_password", 57, true, false, false, false⟩,
    ⟨"encrypt", "bail: empty passphrase", 58, true, false, false, false⟩,
    ⟨"encrypt", "File create", 63, true, true, false, false⟩,
    ⟨"encrypt", "age wrap_output", 71, true, false, false, false⟩,
    ⟨"encrypt", "tar append_dir_all", 81, true, true, false, false⟩,
    ⟨"encrypt", "tar finish", 85, true, false, false, false⟩,
    ⟨"encrypt", "age writer finish", 91, true, false, false, false⟩,
    ⟨"encrypt", "buffer flush", 96, true, false, false, false⟩,
    -- decrypt_file
    ⟨"decrypt", "bail: not a directory", 103, true, true, false, false⟩,
    ⟨"decrypt", "read_password", 111, true, false, false, false⟩,
    ⟨"decrypt", "bail: empty passphrase", 112, true, false, false, false⟩,
    ⟨"decrypt", "File open", 117, true, true, false, false⟩,
    ⟨"decrypt", "age Decryptor new", 122, false, false, false, false⟩,
    ⟨"decrypt", "bail: recipients mode", 124, true, false, false, false⟩,
    ⟨"decrypt", "age passphrase decrypt", 128, false, false, false, false⟩,
    ⟨"decrypt", "tar unpack", 136, true, false, false, false⟩ ]

/-! ## Helper facts -/

/-- A boolean that is not false is true. -/
theorem bool_eq_true_of_ne_false {b : Bool} (h : ¬ b = false) : b = true := by
  cases b
  · exact absurd rfl h
  · rfl

/-- A path that is a directory stores a directory node. -/
theorem isDir_look {fs : Fs} {p : String} (h : Fs.isDir fs p = true) :
    ∃ es, fs.look p = some (FsNode.dirNode es) := by
  unfold Fs.isDir at h
  cases hlk : fs.look p with
  | none => rw [hlk] at h; simp at h
  | some node =>
    cases node with
    | dirNode es => exact ⟨es, rfl⟩
    | fileNode b => rw [hlk] at h; simp at h

/-! ## Claims -/

/-- C1: Round-trip identity. For every directory tree T (entries of any
kind — files, directories, symbolic links — with any permission bits and
byte contents) and every non-empty passphrase P, decrypting with P the
artifact that encrypt produced from T with P succeeds and reproduces
exactly the tree T under the destination directory. -/
theorem C1_roundtrip_identity :
    ∀ (fs : Fs) (folder out dst : String) (T : List Entry) (P : List Nat),
      fs.look folder = some (FsNode.dirNode T) →
      fs.look dst = some (FsNode.dirNode []) →
      dst ≠ out → P ≠ [] →
      (encrypt_folder fs folder out P).result = .ok ∧
      (decrypt_file (encrypt_folder fs folder out P).fs out dst P).result = .ok ∧
      (decrypt_file (encrypt_folder fs folder out P).fs out dst P).fs.look dst =
        some (FsNode.dirNode T) := by
  intro fs folder out dst T P hfolder hdst hne hP
  simp [encrypt_folder, decrypt_file, Fs.isDir, Fs.readFileBytes, Fs.readDirTree,
    hfolder, hdst, hne, hP, Decryptor.new, cipherEncrypt, passphraseDecrypt,
    unpackInto, overwriteMerge]

/-- C1 witness: a concrete round trip of a one-file tree with permission
bits 420 and contents "hi", passphrase [112]. -/
theorem C1_roundtrip_identity_witness :
    (encrypt_folder
        [("src", FsNode.dirNode [⟨[97], .file, 420, [104, 105]⟩]), ("dst", FsNode.dirNode [])]
        "src" "out" [112]).result = .ok ∧
    (decrypt_file
        (encrypt_folder
          [("src", FsNode.dirNode [⟨[97], .file, 420, [104, 105]⟩]), ("dst", FsNode.dirNode [])]
          "src" "out" [112]).fs
        "out" "dst" [112]).result = .ok ∧
    (decrypt_file
        (encrypt_folder
          [("src", FsNode.dirNode [⟨[97], .file, 420, [104, 105]⟩]), ("dst", FsNode.dirNode [])]
          "src" "out" [112]).fs
        "out" "dst" [112]).fs.look "dst" =
      some (FsNode.dirNode [⟨[97], .file, 420, [104, 105]⟩]) :=
  C1_roundtrip_identity
    [("src", FsNode.dirNode [⟨[97], .file, 420, [104, 105]⟩]), ("dst", FsNode.dirNode [])]
    "src" "out" "dst" [⟨[97], .file, 420, [104, 105]⟩] [112]
    (by decide) (by decide) (by decide) (by decide)

/-- C2: Layering order. On the success path, encrypt writes to the output
file exactly the nested composition with the tree serializer innermost, its
stream fed through the compressor, and the compressed stream through the
passphrase cipher; and whenever the mirror composition — cipher, then
decompressor, then deserializer — succeeds on the input file bytes, decrypt
succeeds and unpacks exactly its result into the destination directory. -/
theorem C2_layering_order :
    (∀ (fs : Fs) (folder out : String) (stdin : List Nat),
      Fs.isDir fs folder = true → stdin ≠ [] →
      (encrypt_folder fs folder out stdin).result = .ok ∧
      (encrypt_folder fs folder out stdin).fs =
        Fs.writeFile fs out (encryptPipeline (fs.readDirTree folder) stdin)) ∧
    (∀ (fs : Fs) (input outFolder : String) (stdin bytes : List Nat) (es : List Entry),
      Fs.isDir fs outFolder = true → stdin ≠ [] →
      fs.readFileBytes input = some bytes →
      decryptPipeline bytes stdin = some es →
      (decrypt_file fs input outFolder stdin).result = .ok ∧
      (decrypt_file fs input outFolder stdin).fs = unpackInto fs outFolder es) := by
  constructor
  · intro fs folder out stdin hdir hpass
    simp [encrypt_folder, hdir, hpass, encryptPipeline]
  · intro fs input outF stdin bytes es hdir hpass hread hpipe
    unfold decryptPipeline at hpipe
    cases hd : decodeAgeFile bytes with
    | none => rw [hd] at hpipe; exact absurd hpipe (by simp)
    | some f =>
      rw [hd] at hpipe
      obtain ⟨m, wk, payload⟩ := f
      cases m with
      | recipientsMode => simp at hpipe
      | passphraseMode =>
        simp only at hpipe
        cases hq : passphraseDecrypt wk payload stdin with
        | none => rw [hq] at hpipe; simp at hpipe
        | some plain =>
          rw [hq] at hpipe
          simp only at hpipe
          cases hg : gzipDecompress plain with
          | none => rw [hg] at hpipe; simp at hpipe
          | some tb =>
            rw [hg] at hpipe
            simp only at hpipe
            simp [decrypt_file, hdir, hpass, hread, Decryptor.new, hd, hq, hg, hpipe]

/-- C2 witness: the layering equations at a concrete one-entry tree and a
concrete artifact. -/
theorem C2_layering_order_witness :
    ((encrypt_folder [("s", FsNode.dirNode [])] "s" "o" [1]).result = .ok ∧
     (encrypt_folder [("s", FsNode.dirNode [])] "s" "o" [1]).fs =
       Fs.writeFile [("s", FsNode.dirNode [])] "o"
         (encryptPipeline (Fs.readDirTree [("s", FsNode.dirNode [])] "s") [1])) ∧
    ((decrypt_file [("d", FsNode.dirNode []), ("i", FsNode.fileNode (encryptPipeline [] [1]))]
        "i" "d" [1]).result = .ok ∧
     (decrypt_file [("d", FsNode.dirNode []), ("i", FsNode.fileNode (encryptPipeline [] [1]))]
        "i" "d" [1]).fs =
       unpackInto [("d", FsNode.dirNode []), ("i", FsNode.fileNode (encryptPipeline [] [1]))]
         "d" []) :=
  ⟨C2_layering_order.1 [("s", FsNode.dirNode [])] "s" "o" [1] (by decide) (by decide),
   C2_layering_order.2 [("d", FsNode.dirNode []), ("i", FsNode.fileNode (encryptPipeline [] [1]))]
     "i" "d" [1] (encryptPipeline [] [1]) [] (by decide) (by decide) (by decide) (by decide)⟩

/-- C3: Finalization order. On every success path of encrypt, the stage
finalization events of the run, in order, are: serializer finished, then
compressor finalized, then cipher writer finished, then the file buffer
flushed — so no outer stage is finalized before an inner one. -/
theorem C3_finalization_order :
    ∀ (fs : Fs) (folder out : String) (stdin : List Nat),
      (encrypt_folder fs folder out stdin).result = .ok →
      (encrypt_folder fs folder out stdin).trace.filter isFinalizeEvent =
        [.finishedSerializer, .finalizedCompressor, .finishedCipher, .flushedFile] := by
  intro fs folder out stdin h
  by_cases h1 : Fs.isDir fs folder = false
  · simp [encrypt_folder, h1] at h
  · by_cases h2 : stdin = []
    · simp [encrypt_folder, h1, h2] at h
    · simp [encrypt_folder, h1, h2]
      rfl

/-- C3 witness: the finalization order on a concrete successful run. -/
theorem C3_finalization_order_witness :
    (encrypt_folder [("s", FsNode.dirNode [])] "s" "o" [1]).trace.filter isFinalizeEvent =
      [.finishedSerializer, .finalizedCompressor, .finishedCipher, .flushedFile] :=
  C3_finalization_order [("s", FsNode.dirNode [])] "s" "o" [1] (by decide)

/-- C4: Precondition enforcement without side effects. Encrypt on a source
path that is not a directory fails with the not-a-directory error; an
existing-source encrypt with an empty passphrase fails with the
empty-passphrase error; decrypt with a destination that is not an existing
directory fails with the not-a-directory error; an existing-destination
decrypt with an empty passphrase fails with the empty-passphrase error. In
every such case the filesystem is unchanged (in particular no destination
file is created) and no stream is opened or created. -/
theorem C4_precondition_enforcement :
    (∀ (fs : Fs) (folder out : String) (stdin : List Nat),
      Fs.isDir fs folder = false →
      (encrypt_folder fs folder out stdin).result = .err .notADirectory ∧
      (encrypt_folder fs folder out stdin).fs = fs ∧
      (encrypt_folder fs folder out stdin).trace.count .createdOutput = 0 ∧
      (encrypt_folder fs folder out stdin).trace.count .openedInput = 0) ∧
    (∀ (fs : Fs) (folder out : String),
      Fs.isDir fs folder = true →
      (encrypt_folder fs folder out []).result = .err .emptyPassphrase ∧
      (encrypt_folder fs folder out []).fs = fs ∧
      (encrypt_folder fs folder out []).trace.count .createdOutput = 0 ∧
      (encrypt_folder fs folder out []).trace.count .openedInput = 0) ∧
    (∀ (fs : Fs) (input outFolder : String) (stdin : List Nat),
      Fs.isDir fs outFolder = false →
      (decrypt_file fs input outFolder stdin).result = .err .notADirectory ∧
      (decrypt_file fs input outFolder stdin).fs = fs ∧
      (decrypt_file fs input outFolder stdin).trace.count .createdOutput = 0 ∧
      (decrypt_file fs input outFolder stdin).trace.count .openedInput = 0) ∧
    (∀ (fs : Fs) (input outFolder : String),
      Fs.isDir fs outFolder = true →
      (decrypt_file fs input outFolder []).result = .err .emptyPassphrase ∧
      (decrypt_file fs input outFolder []).fs = fs ∧
      (decrypt_file fs input outFolder []).trace.count .createdOutput = 0 ∧
      (decrypt_file fs input outFolder []).trace.count .openedInput = 0) := by
  refine ⟨?_, ?_, ?_, ?_⟩
  · intro fs folder out stdin h
    simp [encrypt_folder, h]
  · intro fs folder out h
    simp [encrypt_folder, h]
  · intro fs input outF stdin h
    simp [decrypt_file, h]
  · intro fs input outF h
    simp [decrypt_file, h]

/-- C4 witness: the four precondition failures at concrete inputs. -/
theorem C4_precondition_enforcement_witness :
    ((encrypt_folder [] "f" "o" [1]).result = .err .notADirectory ∧
     (encrypt_folder [] "f" "o" [1]).fs = [] ∧
     (encrypt_folder [] "f" "o" [1]).trace.count .createdOutput = 0 ∧
     (encrypt_folder [] "f" "o" [1]).trace.count .openedInput = 0) ∧
    ((encrypt_folder [("f", FsNode.dirNode [])] "f" "o" []).result = .err .emptyPassphrase ∧
     (encrypt_folder [("f", FsNode.dirNode [])] "f" "o" []).fs = [("f", FsNode.dirNode [])] ∧
     (encrypt_folder [("f", FsNode.dirNode [])] "f" "o" []).trace.count .createdOutput = 0 ∧
     (encrypt_folder [("f", FsNode.dirNode [])] "f" "o" []).trace.count .openedInput = 0) ∧
    ((decrypt_file [] "i" "d" [1]).result = .err .notADirectory ∧
     (decrypt_file [] "i" "d" [1]).fs = [] ∧
     (decrypt_file [] "i" "d" [1]).trace.count .createdOutput = 0 ∧
     (decrypt_file [] "i" "d" [1]).trace.count .openedInput = 0) ∧
    ((decrypt_file [("d", FsNode.dirNode [])] "i" "d" []).result = .err .emptyPassphrase ∧
     (decrypt_file [("d", FsNode.dirNode [])] "i" "d" []).fs = [("d", FsNode.dirNode [])] ∧
     (decrypt_file [("d", FsNode.dirNode [])] "i" "d" []).trace.count .createdOutput = 0 ∧
     (decrypt_file [("d", FsNode.dirNode [])] "i" "d" []).trace.count .openedInput = 0) :=
  ⟨C4_precondition_enforcement.1 [] "f" "o" [1] (by decide),
   C4_precondition_enforcement.2.1 [("f", FsNode.dirNode [])] "f" "o" (by decide),
   C4_precondition_enforcement.2.2.1 [] "i" "d" [1] (by decide),
   C4_precondition_enforcement.2.2.2 [("d", FsNode.dirNode [])] "i" "d" (by decide)⟩

/-- C5: Wrong-passphrase rejection. For every source tree and distinct
non-empty passphrases P1 and P2, decrypting with P2 the artifact encrypt
produced with P1 fails with the authentication error and leaves the
filesystem — in particular the destination directory — unchanged. -/
theorem C5_wrong_passphrase_rejected :
    ∀ (fs : Fs) (folder out dst : String) (P1 P2 : List Nat),
      Fs.isDir fs folder = true → Fs.isDir fs dst = true → dst ≠ out →
      P1 ≠ [] → P2 ≠ [] → P1 ≠ P2 →
      (encrypt_folder fs folder out P1).result = .ok ∧
      (decrypt_file (encrypt_folder fs folder out P1).fs out dst P2).result =
        .err .authenticationFailed ∧
      (decrypt_file (encrypt_folder fs folder out P1).fs out dst P2).fs =
        (encrypt_folder fs folder out P1).fs := by
  intro fs folder out dst P1 P2 hdir hdst hne h1 h2 hne12
  have h21 : P2 ≠ P1 := fun h => hne12 h.symm
  obtain ⟨T, hfolder⟩ := isDir_look hdir
  obtain ⟨des, hl⟩ := isDir_look hdst
  simp [encrypt_folder, decrypt_file, Fs.isDir, Fs.readFileBytes, Fs.readDirTree,
    hfolder, hl, hne, h1, h2, h21, Decryptor.new, cipherEncrypt, passphraseDecrypt,
    scryptWrap]

/-- C5 witness: passphrase [1] artifact rejected under passphrase [2]. -/
theorem C5_wrong_passphrase_rejected_witness :
    (encrypt_folder [("s", FsNode.dirNode []), ("d", FsNode.dirNode [])] "s" "o" [1]).result
        = .ok ∧
    (decrypt_file
        (encrypt_folder [("s", FsNode.dirNode []), ("d", FsNode.dirNode [])] "s" "o" [1]).fs
        "o" "d" [2]).result = .err .authenticationFailed ∧
    (decrypt_file
        (encrypt_folder [("s", FsNode.dirNode []), ("d", FsNode.dirNode [])] "s" "o" [1]).fs
        "o" "d" [2]).fs =
      (encrypt_folder [("s", FsNode.dirNode []), ("d", FsNode.dirNode [])] "s" "o" [1]).fs :=
  C5_wrong_passphrase_rejected [("s", FsNode.dirNode []), ("d", FsNode.dirNode [])]
    "s" "o" "d" [1] [2] (by decide) (by decide) (by decide) (by decide) (by decide) (by decide)

/-- C6: Unsupported-mode rejection. Decrypt on an artifact whose header
declares the recipients (public-key) mode fails with the unsupported-mode
error — a value distinct from the authentication error — without attempting
any decryption (the passphrase callback is never invoked, witnessed by the
absence of the passphrase copy it would make) and leaves the filesystem
unchanged. -/
theorem C6_unsupported_mode_rejected :
    ∀ (fs : Fs) (input outFolder : String) (stdin wk payload : List Nat),
      Fs.isDir fs outFolder = true → stdin ≠ [] →
      fs.readFileBytes input = some (encodeAgeFile ⟨.recipientsMode, wk, payload⟩) →
      (decrypt_file fs input outFolder stdin).result = .err .recipientsNotSupported ∧
      DecError.recipientsNotSupported ≠ DecError.authenticationFailed ∧
      (decrypt_file fs input outFolder stdin).fs = fs ∧
      (decrypt_file fs input outFolder stdin).trace.count .clonedPassphrase = 0 := by
  intro fs input outF stdin wk payload hdir hpass hread
  simp [decrypt_file, hdir, hpass, hread, Decryptor.new]

/-- C6 witness: a concrete recipients-mode artifact is rejected with the
distinct unsupported-mode error. -/
theorem C6_unsupported_mode_rejected_witness :
    (decrypt_file [("d", FsNode.dirNode []),
        ("i", FsNode.fileNode (encodeAgeFile ⟨.recipientsMode, [3], [4]⟩))]
      "i" "d" [1]).result = .err .recipientsNotSupported ∧
    DecError.recipientsNotSupported ≠ DecError.authenticationFailed ∧
    (decrypt_file [("d", FsNode.dirNode []),
        ("i", FsNode.fileNode (encodeAgeFile ⟨.recipientsMode, [3], [4]⟩))]
      "i" "d" [1]).fs =
      [("d", FsNode.dirNode []), ("i", FsNode.fileNode (encodeAgeFile ⟨.recipientsMode, [3], [4]⟩))] ∧
    (decrypt_file [("d", FsNode.dirNode []),
        ("i", FsNode.fileNode (encodeAgeFile ⟨.recipientsMode, [3], [4]⟩))]
      "i" "d" [1]).trace.count .clonedPassphrase = 0 :=
  C6_unsupported_mode_rejected
    [("d", FsNode.dirNode []), ("i", FsNode.fileNode (encodeAgeFile ⟨.recipientsMode, [3], [4]⟩))]
    "i" "d" [1] [3] [4] (by decide) (by decide) (by decide)

/-- C7 counterexample: the claim says the passphrase is explicitly cleared
(overwritten or zeroed) when the call chain finishes, on every exit path.
In the source the passphrase is a plain String that is dropped without any
overwrite — no statement of `main.rs` clears it — so a run that reads the
passphrase performs no clearing action: on this concrete successful encrypt
run the trace reads the passphrase once and contains no zeroization. -/
theorem C7_secret_lifetime_counterexample :
    (encrypt_folder [("s", FsNode.dirNode [])] "s" "o" [1]).result = .ok ∧
    (encrypt_folder [("s", FsNode.dirNode [])] "s" "o" [1]).trace.count .readPassphrase = 1 ∧
    (encrypt_folder [("s", FsNode.dirNode [])] "s" "o" [1]).trace.count .zeroizedPassphrase
      = 0 := by
  decide

/-- C7 amended: in both operations the passphrase is acquired exactly once
per invocation (whenever the precondition check passes; never when it
fails), but it is never explicitly cleared: no run of either operation
performs an overwrite or zeroization of the passphrase buffer on any exit
path. -/
theorem C7_secret_lifetime_amended :
    (∀ (fs : Fs) (folder out : String) (stdin : List Nat),
      (Fs.isDir fs folder = true →
        (encrypt_folder fs folder out stdin).trace.count .readPassphrase = 1) ∧
      (Fs.isDir fs folder = false →
        (encrypt_folder fs folder out stdin).trace.count .readPassphrase = 0) ∧
      (encrypt_folder fs folder out stdin).trace.count .zeroizedPassphrase = 0) ∧
    (∀ (fs : Fs) (input outFolder : String) (stdin : List Nat),
      (Fs.isDir fs outFolder = true →
        (decrypt_file fs input outFolder stdin).trace.count .readPassphrase = 1) ∧
      (Fs.isDir fs outFolder = false →
        (decrypt_file fs input outFolder stdin).trace.count .readPassphrase = 0) ∧
      (decrypt_file fs input outFolder stdin).trace.count .zeroizedPassphrase = 0) := by
  constructor
  · intro fs folder out stdin
    unfold encrypt_folder
    repeat' split
    all_goals simp_all [List.count_cons]
  · intro fs input outF stdin
    unfold decrypt_file
    repeat' split
    all_goals simp_all [List.count_cons]

/-- C7 amended witness: the single acquisition and the absence of
zeroization on a concrete run. -/
theorem C7_secret_lifetime_amended_witness :
    (encrypt_folder [("s", FsNode.dirNode [])] "s" "o" [1]).trace.count .readPassphrase = 1 ∧
    (encrypt_folder [("s", FsNode.dirNode [])] "s" "o" [1]).trace.count .zeroizedPassphrase
      = 0 :=
  ⟨(C7_secret_lifetime_amended.1 [("s", FsNode.dirNode [])] "s" "o" [1]).1 (by decide),
   (C7_secret_lifetime_amended.1 [("s", FsNode.dirNode [])] "s" "o" [1]).2.2⟩

/-- C8: No passphrase duplication. No run of encrypt copies the passphrase
buffer at all (it is moved into the cipher), and no run of decrypt copies
it more than the one clone per invocation that the cipher callback
interface requires (the callback returns an owned buffer from a shared
reference, so that single copy is forced by the interface). -/
theorem C8_no_passphrase_duplication :
    (∀ (fs : Fs) (folder out : String) (stdin : List Nat),
      (encrypt_folder fs folder out stdin).trace.count .clonedPassphrase = 0) ∧
    (∀ (fs : Fs) (input outFolder : String) (stdin : List Nat),
      (decrypt_file fs input outFolder stdin).trace.count .clonedPassphrase ≤ 1) := by
  constructor
  · intro fs folder out stdin
    unfold encrypt_folder
    repeat' split
    all_goals simp [List.count_cons]
  · intro fs input outF stdin
    unfold decrypt_file
    repeat' split
    all_goals simp [List.count_cons]

/-- C9 counterexample: the claim says every error anywhere in either
operation is wrapped with the operation and the path it occurred on. The
age decryptor construction at line 122 of `main.rs` propagates its failure
with the bare question-mark operator: no context message and no path is
attached, as the transcription of the error surface records. -/
theorem C9_error_context_counterexample :
    (ErrorSite.mk "decrypt" "age Decryptor new" 122 false false false false) ∈ errorSites ∧
    (ErrorSite.mk "decrypt" "age Decryptor new" 122 false false false false).wrapsStage
      = false ∧
    (ErrorSite.mk "decrypt" "age Decryptor new" 122 false false false false).namesPath
      = false := by
  decide

/-- C9 amended: no error anywhere in either operation is locally recovered
or retried — every failure is terminal for the invocation. The failures of
the precondition directory checks, of creating the output file, of adding
the source folder to the archive, and of opening the input file are wrapped
with a message naming the affected path; every other wrapped failure
(passphrase read, empty passphrase, cipher writer creation, tar finalize,
cipher finalize, buffer flush, recipients-mode bail, unpack) carries a
stage description without a path; and the age decryptor construction and
the passphrase decryption propagate their failures with no added context at
all. -/
theorem C9_error_context_amended :
    errorSites.all (fun s => !s.locallyRecovered && !s.retried) = true ∧
    (errorSites.filter (fun s => s.namesPath)).map (fun s => (s.operation, s.failingCall)) =
      [("encrypt", "bail: not a directory"), ("encrypt", "File create"),
       ("encrypt", "tar append_dir_all"), ("decrypt", "bail: not a directory"),
       ("decrypt", "File open")] ∧
    (errorSites.filter (fun s => !s.wrapsStage)).map (fun s => (s.operation, s.failingCall)) =
      [("decrypt", "age Decryptor new"), ("decrypt", "age passphrase decrypt")] := by
  decide

/-- C10: Validation precedes the prompt. When the source of encrypt is not
a directory, or the destination of decrypt is not an existing directory,
the operation returns the precondition error with a trace containing
neither the passphrase prompt nor a passphrase read. -/
theorem C10_validation_precedes_prompt :
    (∀ (fs : Fs) (folder out : String) (stdin : List Nat),
      Fs.isDir fs folder = false →
      (encrypt_folder fs folder out stdin).result = .err .notADirectory ∧
      (encrypt_folder fs folder out stdin).trace.count .printedPrompt = 0 ∧
      (encrypt_folder fs folder out stdin).trace.count .readPassphrase = 0) ∧
    (∀ (fs : Fs) (input outFolder : String) (stdin : List Nat),
      Fs.isDir fs outFolder = false →
      (decrypt_file fs input outFolder stdin).result = .err .notADirectory ∧
      (decrypt_file fs input outFolder stdin).trace.count .printedPrompt = 0 ∧
      (decrypt_file fs input outFolder stdin).trace.count .readPassphrase = 0) := by
  constructor
  · intro fs folder out stdin h
    simp [encrypt_folder, h]
  · intro fs input outF stdin h
    simp [decrypt_file, h]

/-- C10 witness: both precondition failures at concrete inputs produce no
prompt and no passphrase read. -/
theorem C10_validation_precedes_prompt_witness :
    ((encrypt_folder [] "f" "o" [1]).result = .err .notADirectory ∧
     (encrypt_folder [] "f" "o" [1]).trace.count .printedPrompt = 0 ∧
     (encrypt_folder [] "f" "o" [1]).trace.count .readPassphrase = 0) ∧
    ((decrypt_file [] "i" "d" [1]).result = .err .notADirectory ∧
     (decrypt_file [] "i" "d" [1]).trace.count .printedPrompt = 0 ∧
     (decrypt_file [] "i" "d" [1]).trace.count .readPassphrase = 0) :=
  ⟨C10_validation_precedes_prompt.1 [] "f" "o" [1] (by decide),
   C10_validation_precedes_prompt.2 [] "i" "d" [1] (by decide)⟩

end FolderLock
